import Mathlib

/-!
Shallow embedding of the asio-raw-linklayer library: the link-layer protocol
descriptor and endpoint from include/ll_protocol.hpp and the asynchronous raw
server from src/async_raw_server.cpp, together with theorems about the
endpoint constructors, assignment, the protocol byte-order round-trip and the
send path.

Machine integers are modelled as Nat (all values involved are unsigned);
htons/ntohs are the 16-bit byte swap of a little-endian GNU/Linux host.
Fields of struct sockaddr_ll that a C++ constructor leaves uninitialised are
supplied by an explicit parameter holding the indeterminate prior bytes.
-/

/-- Linux constant PF_PACKET (packet-socket address/protocol family). -/
def PF_PACKET : Nat := 17

/-- Linux constant ETH_P_ALL, the wildcard EtherType filter. -/
def ETH_P_ALL : Nat := 3

/-- Linux constant ETH_ALEN, the length in bytes of an Ethernet MAC address. -/
def ETH_ALEN : Nat := 6

/-- Linux constant SOCK_RAW. -/
def SOCK_RAW : Nat := 3

/-- Linux errno value ENODEV, set by glibc if_nametoindex on failure. -/
def ENODEV : Nat := 19

/-- Size in bytes of struct ether_header (two MAC addresses plus EtherType). -/
def ETHER_HDR_LEN : Nat := 14

/-- Swap of the two bytes of a 16-bit value. -/
def swap16 (v : Nat) : Nat := v % 256 * 256 + v / 256 % 256

/-- Host-to-network conversion of a 16-bit value on a little-endian host. -/
def htons (v : Nat) : Nat := swap16 (v % 65536)

/-- Network-to-host conversion of a 16-bit value on a little-endian host. -/
def ntohs (v : Nat) : Nat := swap16 (v % 65536)

/-- Class ll_protocol: EtherType filter (stored in network byte order) paired
with an address family. -/
structure ll_protocol where
  m_protocol : Nat
  m_family : Nat
deriving DecidableEq

/-- Constructor ll_protocol(eth_protocol, af_family): stores
htons(eth_protocol) and the family. -/
def ll_protocol.construct (eth_protocol : Nat) (af_family : Nat) : ll_protocol :=
  { m_protocol := htons eth_protocol, m_family := af_family }

/-- Accessor ll_protocol::protocol(). -/
def ll_protocol.protocol (p : ll_protocol) : Nat := p.m_protocol

/-- Accessor ll_protocol::family(). -/
def ll_protocol.family (p : ll_protocol) : Nat := p.m_family

/-- Accessor ll_protocol::type(), always SOCK_RAW. -/
def ll_protocol.type (_ : ll_protocol) : Nat := SOCK_RAW

/-- Struct sockaddr_ll (netpacket/packet.h); sll_addr holds 8 bytes. -/
structure sockaddr_ll where
  sll_family : Nat
  sll_protocol : Nat
  sll_ifindex : Nat
  sll_hatype : Nat
  sll_pkttype : Nat
  sll_halen : Nat
  sll_addr : List Nat
deriving DecidableEq

/-- Class ll_endpoint: a link-layer socket address together with the
ll_protocol member built at construction. -/
structure ll_endpoint where
  m_sockaddr : sockaddr_ll
  m_protocol_type : ll_protocol
deriving DecidableEq

/-- Constructor ll_endpoint(uint16_t eth_protocol): sets sll_family,
sll_protocol (already htons-converted inside ll_protocol), sll_ifindex = 0 and
sll_hatype = 1. The C++ code leaves sll_pkttype, sll_halen and sll_addr
uninitialised; the parameter indet supplies those indeterminate bytes. -/
def ll_endpoint.construct1 (eth_protocol : Nat) (indet : sockaddr_ll) : ll_endpoint :=
  let p := ll_protocol.construct eth_protocol PF_PACKET
  { m_sockaddr :=
      { indet with
        sll_family := PF_PACKET,
        sll_protocol := p.protocol,
        sll_ifindex := 0,
        sll_hatype := 1 },
    m_protocol_type := p }

/-- Operating-system environment: resolve maps an interface name to its
kernel interface index, with 0 meaning the name does not resolve (kernel
interface indices are positive). -/
structure OS where
  resolve : String → Nat

/-- Call if_nametoindex(name): returns the pair of the result and the errno
value observed after the call. On failure glibc returns 0 and sets errno to
ENODEV; on success errno keeps its previous value errno0. -/
def if_nametoindex (os : OS) (errno0 : Nat) (name : String) : Nat × Nat :=
  if os.resolve name = 0 then (0, ENODEV) else (os.resolve name, errno0)

/-- Constructor ll_endpoint(const std::string and ifname, uint16_t
eth_protocol): when ifname is non-empty it resolves the name with
if_nametoindex and throws a runtime_error naming the interface when the
result is 0 and errno is non-zero; otherwise the index stays 0. The thrown
exception is modelled as Except.error carrying the message. -/
def ll_endpoint.constructNamed (os : OS) (errno0 : Nat) (ifname : String)
    (eth_protocol : Nat) (indet : sockaddr_ll) : Except String ll_endpoint :=
  let p := ll_protocol.construct eth_protocol PF_PACKET
  let resolved : Except String Nat :=
    if ifname = "" then Except.ok 0
    else
      let r := if_nametoindex os errno0 ifname
      if r.1 = 0 ∧ r.2 ≠ 0 then
        Except.error ("network interface \x27" ++ ifname ++ "\x27 does not exist")
      else Except.ok r.1
  resolved.map fun ifindex =>
    { m_sockaddr :=
        { indet with
          sll_family := PF_PACKET,
          sll_protocol := p.protocol,
          sll_ifindex := ifindex,
          sll_hatype := 1 },
      m_protocol_type := p }

/-- Constructor ll_endpoint(struct sockaddr_ll and addr): copies the given
address verbatim and initialises m_protocol_type with ETH_P_ALL. -/
def ll_endpoint.fromSockaddr (addr : sockaddr_ll) : ll_endpoint :=
  { m_sockaddr := addr,
    m_protocol_type := ll_protocol.construct ETH_P_ALL PF_PACKET }

/-- Member operator=(const ll_endpoint and other): assigns m_sockaddr only. -/
def ll_endpoint.assign (a other : ll_endpoint) : ll_endpoint :=
  { a with m_sockaddr := other.m_sockaddr }

/-- Accessor ll_endpoint::protocol(). -/
def ll_endpoint.protocol (e : ll_endpoint) : ll_protocol := e.m_protocol_type

/-- Accessor ll_endpoint::data(): the underlying socket-address bytes. -/
def ll_endpoint.data (e : ll_endpoint) : sockaddr_ll := e.m_sockaddr

/-- Size in bytes of struct sockaddr_ll. -/
def sizeof_sockaddr_ll : Nat := 20

/-- Member ll_endpoint::size(). -/
def ll_endpoint.size (_ : ll_endpoint) : Nat := sizeof_sockaddr_ll

/-- Member ll_endpoint::capacity(). -/
def ll_endpoint.capacity (_ : ll_endpoint) : Nat := sizeof_sockaddr_ll

/-- Member ll_endpoint::resize(s): does nothing. -/
def ll_endpoint.resize (e : ll_endpoint) (_ : Nat) : ll_endpoint := e

/-- Values captured by the completion handler that async_send registers:
boost::bind(handle_send, this, placeholders::error,
placeholders::bytes_transferred). The sharedBuffer alternative exists so that
a handler owning a shared_ptr copy of the payload is expressible. -/
inductive Capture where
  | thisPtr
  | errorPlaceholder
  | bytesPlaceholder
  | sharedBuffer (bytes : List Nat)
deriving DecidableEq

/-- Raw link-layer socket, reduced to the address it is bound to. -/
structure raw_socket where
  boundTo : sockaddr_ll
  isOpen : Bool
deriving DecidableEq

/-- Class async_raw_server: receive buffer, bound endpoint and socket. -/
structure async_raw_server where
  m_buffer : List Nat
  m_endpoint : ll_endpoint
  m_socket : raw_socket
deriving DecidableEq

/-- Opening the raw socket bound to the given endpoint. -/
def openBoundSocket (ep : ll_endpoint) : raw_socket :=
  { boundTo := ep.m_sockaddr, isOpen := true }

/-- Constructor async_raw_server(ios, ifname, protocol): member-initialisation
order is m_buffer, m_endpoint(ifname, protocol), m_socket(ios, m_endpoint);
when the endpoint constructor throws, the socket member is never constructed,
which the Except.map captures. The receive buffer starts uninitialised; the
parameter bufInit supplies its indeterminate bytes. -/
def async_raw_server.construct (os : OS) (errno0 : Nat) (ifname : String)
    (protocol : Nat) (indet : sockaddr_ll) (bufInit : List Nat) :
    Except String async_raw_server :=
  (ll_endpoint.constructNamed os errno0 ifname protocol indet).map fun ep =>
    { m_buffer := bufInit, m_endpoint := ep, m_socket := openBoundSocket ep }

/-- Outcome of one async_send call: the endpoint passed to async_send_to, the
contents of the freshly allocated shared_ptr copy of the payload, and the
values captured by the registered completion handler. -/
structure SendOp where
  remote : ll_endpoint
  ownedCopy : List Nat
  handlerCaptures : List Capture
deriving DecidableEq

/-- Byte of a buffer at offset i; a read past the end of the buffer yields an
unspecified value, modelled as 0. -/
def readByte (data : List Nat) (i : Nat) : Nat := data.getD i 0

/-- Member async_raw_server::async_send(const std::vector of char and data):
reinterprets the start of the payload as a struct ether_header, copies the
bound endpoint address, sets sll_halen to ETH_ALEN and memcpy-s the ETH_ALEN
bytes of ether_dhost (payload offsets 0..5) over the start of sll_addr, builds
the remote endpoint from that address, copies the payload into a fresh
shared_ptr-owned vector and submits async_send_to with a handler binding only
the this pointer and the two placeholders. -/
def async_raw_server.async_send (srv : async_raw_server) (data : List Nat) : SendOp :=
  let dhost := (List.range ETH_ALEN).map (readByte data)
  let addr0 := srv.m_endpoint.m_sockaddr
  let addr :=
    { addr0 with
      sll_halen := ETH_ALEN,
      sll_addr := dhost ++ addr0.sll_addr.drop ETH_ALEN }
  let remote := ll_endpoint.fromSockaddr addr
  { remote := remote,
    ownedCopy := data,
    handlerCaptures := [Capture.thisPtr, Capture.errorPlaceholder, Capture.bytesPlaceholder] }

/-- Overload async_raw_server::async_send(const char* data, size_t data_len):
copies the data_len bytes into a vector and calls the vector overload. -/
def async_raw_server.async_send_ptr (srv : async_raw_server) (bytes : List Nat) : SendOp :=
  async_raw_server.async_send srv bytes

/-- Predicate selecting handler captures that own the shared_ptr copy. -/
def isSharedBuffer : Capture → Bool
  | Capture.sharedBuffer _ => true
  | _ => false

/-- Number of owners of the shared_ptr payload copy once async_send has
returned: the local shared_ptr variable is destroyed at scope exit, so only
references captured by the completion handler remain. -/
def SendOp.copyOwnersAfterReturn (op : SendOp) : Nat :=
  op.handlerCaptures.countP isSharedBuffer

/-- Whether the payload copy is still allocated between the return of
async_send and the completion callback. -/
def SendOp.copyAliveUntilCompletion (op : SendOp) : Bool :=
  decide (0 < op.copyOwnersAfterReturn)

/-- Payload byte offsets read by async_send when it extracts the destination
hardware address: memcpy of hdr->ether_dhost over ETH_ALEN bytes, with
ether_dhost at offset 0 of struct ether_header. -/
def asyncSendReadOffsets : List Nat := List.range ETH_ALEN

/-- Whether the destination-address read of async_send touches an offset
outside a payload of the given length. -/
def asyncSendReadsOutOfBounds (len : Nat) : Bool :=
  asyncSendReadOffsets.any fun i => decide (len ≤ i)

/-- Concrete sockaddr_ll with every field zero. -/
def zeroAddr : sockaddr_ll :=
  { sll_family := 0, sll_protocol := 0, sll_ifindex := 0, sll_hatype := 0,
    sll_pkttype := 0, sll_halen := 0, sll_addr := [0, 0, 0, 0, 0, 0, 0, 0] }

/-- Concrete server bound to all interfaces with the wildcard filter. -/
def srvEx : async_raw_server :=
  { m_buffer := List.replicate 1500 0,
    m_endpoint := ll_endpoint.construct1 ETH_P_ALL zeroAddr,
    m_socket := openBoundSocket (ll_endpoint.construct1 ETH_P_ALL zeroAddr) }

/-- Concrete 14-byte Ethernet frame: broadcast destination, source
01:02:03:04:05:06, EtherType 0x0800. -/
def payloadEx : List Nat :=
  [255, 255, 255, 255, 255, 255, 1, 2, 3, 4, 5, 6, 8, 0]

/-- Operating system on which no interface name resolves. -/
def osNone : OS := { resolve := fun _ => 0 }

/-- Concrete endpoint built with EtherType 0x0800. -/
def epA : ll_endpoint := ll_endpoint.construct1 2048 zeroAddr

/-- Concrete endpoint built with the wildcard EtherType. -/
def epB : ll_endpoint := ll_endpoint.construct1 ETH_P_ALL zeroAddr

/-- Concrete raw address whose protocol field is htons(0x0800) = 8. -/
def ipAddrEx : sockaddr_ll := { zeroAddr with sll_protocol := 8 }

/-- Reading the first n bytes of a buffer, one offset at a time, is the
n-byte prefix of the buffer when the buffer holds at least n bytes. -/
theorem readPrefix_eq_take (data : List Nat) : ∀ n, n ≤ data.length →
    (List.range n).map (readByte data) = data.take n := by
  induction data with
  | nil =>
    intro n hn
    simp only [List.length_nil, Nat.le_zero] at hn
    subst hn
    simp
  | cons a tl ih =>
    intro n hn
    cases n with
    | zero => simp
    | succ m =>
      rw [List.range_succ_eq_map, List.map_cons, List.map_map]
      have h2 : readByte (a :: tl) ∘ Nat.succ = readByte tl := by
        funext i
        rfl
      rw [h2, ih m (by simpa using hn)]
      rfl

/-- Claim C1, counterexample: for the server bound to all interfaces with the
wildcard filter and a broadcast Ethernet frame, the endpoint async_send passes
to async_send_to differs from the server's bound endpoint, because async_send
sets sll_halen to ETH_ALEN and overwrites sll_addr with the destination
address read out of the payload. -/
theorem c1_counterexample :
    (srvEx.async_send payloadEx).remote ≠ srvEx.m_endpoint := by
  decide

/-- Claim C1, amended: for every server and every payload of at least ETH_ALEN
bytes, async_send submits the send to the endpoint obtained from the server's
bound endpoint by setting the hardware-address length to ETH_ALEN and
replacing the first ETH_ALEN hardware-address bytes with the destination MAC
address read from the payload's embedded Ethernet header; family, protocol,
interface index and hardware-address type are taken from the bound endpoint. -/
theorem c1_send_target (srv : async_raw_server) (data : List Nat)
    (h : ETH_ALEN ≤ data.length) :
    (srv.async_send data).remote.m_sockaddr =
      { srv.m_endpoint.m_sockaddr with
        sll_halen := ETH_ALEN,
        sll_addr := data.take ETH_ALEN ++
          srv.m_endpoint.m_sockaddr.sll_addr.drop ETH_ALEN } := by
  show ({ srv.m_endpoint.m_sockaddr with
          sll_halen := ETH_ALEN,
          sll_addr := (List.range ETH_ALEN).map (readByte data) ++
            srv.m_endpoint.m_sockaddr.sll_addr.drop ETH_ALEN } : sockaddr_ll) = _
  rw [readPrefix_eq_take data ETH_ALEN h]

/-- Witness for c1_send_target at the concrete server and frame. -/
theorem c1_send_target_witness :
    (srvEx.async_send payloadEx).remote.m_sockaddr =
      { srvEx.m_endpoint.m_sockaddr with
        sll_halen := ETH_ALEN,
        sll_addr := payloadEx.take ETH_ALEN ++
          srvEx.m_endpoint.m_sockaddr.sll_addr.drop ETH_ALEN } :=
  c1_send_target srvEx payloadEx (by decide)

/-- Claim C2, code evaluation: for every server and payload, async_send does
copy the payload into a fresh owned buffer, but the completion handler that
async_send registers captures only the this pointer and the two placeholders,
so no reference to the shared_ptr copy survives the return of async_send and
the copy is not kept alive until the send-completion callback fires. -/
theorem c2_copy_not_kept_alive (srv : async_raw_server) (data : List Nat) :
    (srv.async_send data).ownedCopy = data ∧
    Capture.sharedBuffer data ∉ (srv.async_send data).handlerCaptures ∧
    (srv.async_send data).copyAliveUntilCompletion = false := by
  refine ⟨rfl, ?_, rfl⟩
  intro hmem
  simp [async_raw_server.async_send] at hmem

/-- Claim C3: for every non-empty interface name that does not resolve to a
kernel interface index (if_nametoindex returns 0, having set errno), both the
endpoint constructor and the server constructor fail with the runtime error
naming the missing interface; the failing server construction yields no server
value, so no usable server or open socket is left behind. -/
theorem c3_interface_not_found (os : OS) (errno0 : Nat) (ifname : String)
    (proto : Nat) (indet : sockaddr_ll) (bufInit : List Nat)
    (hne : ifname ≠ "") (hres : os.resolve ifname = 0) :
    ll_endpoint.constructNamed os errno0 ifname proto indet =
      Except.error ("network interface \x27" ++ ifname ++ "\x27 does not exist") ∧
    async_raw_server.construct os errno0 ifname proto indet bufInit =
      Except.error ("network interface \x27" ++ ifname ++ "\x27 does not exist") := by
  constructor
  · simp [ll_endpoint.constructNamed, if_nametoindex, hne, hres, ENODEV, Except.map]
  · simp [async_raw_server.construct, ll_endpoint.constructNamed, if_nametoindex,
      hne, hres, ENODEV, Except.map]

/-- Witness for c3_interface_not_found on an operating system where no name
resolves, at the concrete name eth9. -/
theorem c3_interface_not_found_witness :
    ll_endpoint.constructNamed osNone 0 "eth9" ETH_P_ALL zeroAddr =
      Except.error ("network interface \x27" ++ "eth9" ++ "\x27 does not exist") ∧
    async_raw_server.construct osNone 0 "eth9" ETH_P_ALL zeroAddr [] =
      Except.error ("network interface \x27" ++ "eth9" ++ "\x27 does not exist") :=
  c3_interface_not_found osNone 0 "eth9" ETH_P_ALL zeroAddr [] (by decide) rfl

/-- Claim C4, counterexample: the raw socket-address constructor copies the
given address verbatim, so an endpoint built from an address whose family
field is 0 (AF_UNSPEC) does not carry the packet-socket family PF_PACKET. -/
theorem c4_counterexample :
    (ll_endpoint.fromSockaddr zeroAddr).m_sockaddr.sll_family ≠ PF_PACKET := by
  decide

/-- Claim C4, amended: endpoints built by the protocol-filter constructor or
by the interface-name constructor carry the packet-socket family; the raw
socket-address constructor instead wraps the given address verbatim, family
included; and resize, the only non-assignment mutator, changes nothing, so the
interface index and protocol fields are immutable except through whole-value
reassignment. -/
theorem c4_family_invariant :
    (∀ proto indet,
      (ll_endpoint.construct1 proto indet).m_sockaddr.sll_family = PF_PACKET) ∧
    (∀ os errno0 ifname proto indet ep,
      ll_endpoint.constructNamed os errno0 ifname proto indet = Except.ok ep →
      ep.m_sockaddr.sll_family = PF_PACKET) ∧
    (∀ addr, (ll_endpoint.fromSockaddr addr).m_sockaddr = addr) ∧
    (∀ e s, ll_endpoint.resize e s = e) := by
  refine ⟨fun proto indet => rfl, ?_, fun addr => rfl, fun e s => rfl⟩
  intro os errno0 ifname proto indet ep h
  simp only [ll_endpoint.constructNamed] at h
  split at h
  · simp only [Except.map] at h
    cases h
    rfl
  · split at h
    · simp only [Except.map] at h
      cases h
    · simp only [Except.map] at h
      cases h
      rfl

/-- Witness for c4_family_invariant: its interface-name clause applied to the
empty name on the concrete environment. -/
theorem c4_family_invariant_witness :
    (ll_endpoint.construct1 ETH_P_ALL zeroAddr).m_sockaddr.sll_family = PF_PACKET :=
  c4_family_invariant.2.1 osNone 0 "" ETH_P_ALL zeroAddr
    (ll_endpoint.construct1 ETH_P_ALL zeroAddr) rfl

/-- Claim C5, counterexample: after assigning epB into epA the raw
socket-address bytes match, but the protocol descriptor of the target is not
updated, so it still differs from the protocol descriptor of the source. -/
theorem c5_counterexample :
    (epA.assign epB).data = epB.data ∧
    (epA.assign epB).protocol ≠ epB.protocol := by
  decide

/-- Claim C5, amended: assignment copies the raw socket-address bytes of the
source, and leaves the protocol descriptor member of the target unchanged. -/
theorem c5_assign (a b : ll_endpoint) :
    (a.assign b).data = b.data ∧ (a.assign b).protocol = a.protocol :=
  ⟨rfl, rfl⟩

/-- Claim C6, counterexample: a 6-byte payload is shorter than the 14-byte
struct ether_header, yet the destination-address read of async_send stays in
bounds, because the read covers only the ETH_ALEN bytes of ether_dhost at
offset 0. -/
theorem c6_counterexample :
    6 < ETHER_HDR_LEN ∧ asyncSendReadsOutOfBounds 6 = false := by
  decide

/-- Claim C6, amended: async_send reads the ETH_ALEN-byte destination-address
field at offset 0 of the payload without any length precondition or check, and
that read goes out of bounds exactly for the payloads shorter than ETH_ALEN
bytes, including the zero-length payload reachable through the pointer-length
overload. -/
theorem c6_read_bounds (len : Nat) :
    asyncSendReadsOutOfBounds len = true ↔ len < ETH_ALEN := by
  simp only [asyncSendReadsOutOfBounds, asyncSendReadOffsets, ETH_ALEN,
    List.any_eq_true, List.mem_range, decide_eq_true_eq]
  constructor
  · rintro ⟨i, hi, hle⟩
    omega
  · intro h
    exact ⟨len, h, Nat.le_refl len⟩

/-- Claim C7: a 16-bit EtherType filter passed at construction is stored
host-to-network converted exactly once, both in the protocol descriptor and
in the sll_protocol field of an endpoint built with it, and reading it back
through the accessor and converting to host order restores the value. -/
theorem c7_protocol_roundtrip (v fam : Nat) (indet : sockaddr_ll)
    (h : v < 65536) :
    (ll_protocol.construct v fam).m_protocol = htons v ∧
    ntohs ((ll_protocol.construct v fam).protocol) = v ∧
    (ll_endpoint.construct1 v indet).m_sockaddr.sll_protocol = htons v := by
  refine ⟨rfl, ?_, rfl⟩
  show ntohs (htons v) = v
  have hv : v % 65536 = v := Nat.mod_eq_of_lt h
  have hq : v / 256 < 256 := by omega
  have hr : v % 256 < 256 := Nat.mod_lt v (by omega)
  have hs : swap16 v < 65536 := by
    unfold swap16
    omega
  unfold ntohs htons
  rw [hv, Nat.mod_eq_of_lt hs]
  unfold swap16
  rw [Nat.mod_eq_of_lt hq, Nat.mul_add_mod', Nat.mod_eq_of_lt hq]
  have hd : (v % 256 * 256 + v / 256) / 256 = v % 256 := by
    rw [Nat.mul_comm (v % 256) 256, Nat.mul_add_div (by omega : (0 : Nat) < 256),
      Nat.div_eq_of_lt hq]
    omega
  rw [hd, Nat.mod_eq_of_lt hr]
  omega

/-- Witness for c7_protocol_roundtrip at the IPv4 EtherType 0x0800. -/
theorem c7_protocol_roundtrip_witness :
    (ll_protocol.construct 2048 PF_PACKET).m_protocol = htons 2048 ∧
    ntohs ((ll_protocol.construct 2048 PF_PACKET).protocol) = 2048 ∧
    (ll_endpoint.construct1 2048 zeroAddr).m_sockaddr.sll_protocol = htons 2048 :=
  c7_protocol_roundtrip 2048 PF_PACKET zeroAddr (by decide)

/-- Claim C8: for every EtherType filter, the interface-name constructor with
the empty name and the constructor taking no name both succeed uncondition-
ally — in every environment and whatever errno holds — and produce the
endpoint whose interface index is 0, meaning all interfaces. -/
theorem c8_empty_ifname (os : OS) (errno0 proto : Nat) (indet : sockaddr_ll) :
    ll_endpoint.constructNamed os errno0 "" proto indet =
      Except.ok (ll_endpoint.construct1 proto indet) ∧
    (ll_endpoint.construct1 proto indet).m_sockaddr.sll_ifindex = 0 :=
  ⟨rfl, rfl⟩

/-- Claim C10: the raw socket-address constructor always sets the protocol
descriptor to the wildcard built from ETH_P_ALL, whatever the protocol field
of the wrapped address holds; hence whenever that field differs from the
network-order wildcard, the descriptor disagrees with the wrapped bytes. -/
theorem c10_raw_ctor_wildcard (addr : sockaddr_ll) :
    (ll_endpoint.fromSockaddr addr).protocol =
      ll_protocol.construct ETH_P_ALL PF_PACKET ∧
    ((ll_endpoint.fromSockaddr addr).protocol).protocol = htons ETH_P_ALL ∧
    (addr.sll_protocol ≠ htons ETH_P_ALL →
      ((ll_endpoint.fromSockaddr addr).protocol).protocol ≠ addr.sll_protocol) := by
  refine ⟨rfl, rfl, ?_⟩
  intro hne heq
  exact hne heq.symm

/-- Witness for c10_raw_ctor_wildcard at an address carrying the network-order
IPv4 EtherType. -/
theorem c10_raw_ctor_wildcard_witness :
    ((ll_endpoint.fromSockaddr ipAddrEx).protocol).protocol ≠ ipAddrEx.sll_protocol :=
  (c10_raw_ctor_wildcard ipAddrEx).2.2 (by decide)
